import Mathlib

/-!
Verification development for the liquidation-notification bot
(OKX + Binance + Huobi variants). The JavaScript sources are embedded
shallowly: JS numbers are modelled as rationals with an explicit NaN,
JS values as a small value type, and the stateful drain / retry loops
as explicit recursive functions over their state.
-/

namespace TgBot

/-- Model of a JS number: either NaN or an exact rational value. -/
inductive JNum
  | nan
  | val (q : ℚ)
deriving DecidableEq

/-- JS truthiness of a number: NaN and 0 are falsy. -/
def numTruthy : JNum → Bool
  | .nan => false
  | .val q => decide (q ≠ 0)

/-- JS multiplication: NaN propagates. -/
def jnMul : JNum → JNum → JNum
  | .nan, _ => .nan
  | _, .nan => .nan
  | .val a, .val b => .val (a * b)

/-- Reconnect logic of `connectOKX` / `connectBinance` (index.js lines 232-236
and 273-277): a socket-lifetime event (`close` or `error`) that fires the
`restart` closure. -/
inductive SockEvent
  | close
  | error
deriving DecidableEq

/-- Delays scheduled by the `restart` closure of ONE `connectOKX` invocation:
`setTimeout(connectOKX, Math.pow(2, Math.min(5, reconnectAttempts++)) * 1000)`,
where `reconnectAttempts` is the invocation-local counter (post-increment). -/
def restartDelaysOneSocket : Nat → List SockEvent → List Nat
  | _, [] => []
  | attempts, _ :: es => 2 ^ (min 5 attempts) * 1000 :: restartDelaysOneSocket (attempts + 1) es

/-- Delays observed across a sequence of connection attempts. Each scheduled
reconnect calls `connectOKX` afresh, and that call re-declares
`let pingInt, reconnectAttempts = 0`, so every attempt starts its counter at 0.
The input is the list of per-socket event lists, one per `connectOKX` call. -/
def reconnectDelaysAcrossAttempts (sockets : List (List SockEvent)) : List Nat :=
  (sockets.map (restartDelaysOneSocket 0)).flatten

/-- Modelled from the spec: `delay = base * 2^min(attempts, capExponent)` with
base 1 second and cap exponent 5, where `attempts` counts consecutive failures
and resets only on a confirmed successful open. -/
def specBackoffDelay (n : Nat) : Nat := 1000 * 2 ^ (min n 5)

/-- Whether `pat` is a prefix of the character list. -/
def isPrefixL : List Char → List Char → Bool
  | [], _ => true
  | _ :: _, [] => false
  | p :: ps, c :: cs => p = c && isPrefixL ps cs

/-- Whether `pat` occurs as a contiguous sublist. -/
def containsL (pat : List Char) : List Char → Bool
  | [] => pat.isEmpty
  | c :: cs => isPrefixL pat (c :: cs) || containsL pat cs

/-- JS `s.toUpperCase()` on the ASCII range. -/
def strToUpper (s : String) : String := String.mk (s.data.map Char.toUpper)

/-- JS whitespace for the purposes of `Number` / `parseFloat` trimming. -/
def wsChar (c : Char) : Bool := c = ' ' ∨ c = '\n' ∨ c = '\t' ∨ c = '\r'

/-- Digits of a decimal literal folded into a natural number. -/
def digitsToNat (cs : List Char) : Nat :=
  cs.foldl (fun a c => a * 10 + (c.toNat - 48)) 0

/-- Split a character list into its leading decimal digits and the rest. -/
def takeDigits (cs : List Char) : List Char × List Char :=
  (cs.takeWhile Char.isDigit, cs.dropWhile Char.isDigit)

/-- Parse an unsigned decimal literal `digits [ "." digits ]`, returning its
rational value and the unconsumed suffix. -/
def parseUD (cs : List Char) : Option (ℚ × List Char) :=
  let p := takeDigits cs
  match p.2 with
  | '.' :: r2 =>
    let f := takeDigits r2
    if p.1.isEmpty && f.1.isEmpty then none
    else some ((digitsToNat p.1 : ℚ) + (digitsToNat f.1 : ℚ) / (10 : ℚ) ^ f.1.length, f.2)
  | _ => if p.1.isEmpty then none else some ((digitsToNat p.1 : ℚ), p.2)

/-- Parse an optional exponent part `e[+|-]digits`; an absent or malformed
exponent contributes 0 and consumes nothing. -/
def parseExpPart (cs : List Char) : Int × List Char :=
  match cs with
  | 'e' :: r =>
    (match r with
     | '-' :: r2 =>
       let d := takeDigits r2
       if d.1.isEmpty then (0, cs) else (-(digitsToNat d.1 : Int), d.2)
     | '+' :: r2 =>
       let d := takeDigits r2
       if d.1.isEmpty then (0, cs) else ((digitsToNat d.1 : Int), d.2)
     | _ =>
       let d := takeDigits r
       if d.1.isEmpty then (0, cs) else ((digitsToNat d.1 : Int), d.2))
  | 'E' :: r =>
    (match r with
     | '-' :: r2 =>
       let d := takeDigits r2
       if d.1.isEmpty then (0, cs) else (-(digitsToNat d.1 : Int), d.2)
     | '+' :: r2 =>
       let d := takeDigits r2
       if d.1.isEmpty then (0, cs) else ((digitsToNat d.1 : Int), d.2)
     | _ =>
       let d := takeDigits r
       if d.1.isEmpty then (0, cs) else ((digitsToNat d.1 : Int), d.2))
  | _ => (0, cs)

/-- Parse a signed decimal literal with optional fraction and exponent. -/
def parseSignedDec (cs : List Char) : Option (ℚ × List Char) :=
  match cs with
  | '-' :: r =>
    match parseUD r with
    | none => none
    | some p =>
      let e := parseExpPart p.2
      some (-(p.1 * (10 : ℚ) ^ e.1), e.2)
  | '+' :: r =>
    match parseUD r with
    | none => none
    | some p =>
      let e := parseExpPart p.2
      some (p.1 * (10 : ℚ) ^ e.1, e.2)
  | _ =>
    match parseUD cs with
    | none => none
    | some p =>
      let e := parseExpPart p.2
      some (p.1 * (10 : ℚ) ^ e.1, e.2)

/-- JS `Number(string)` on the decimal-literal subset: trims whitespace, maps
the empty string to 0, and requires the whole remainder to be one signed
decimal literal, else NaN. -/
def jsStrToNum (s : String) : JNum :=
  let t := ((s.data.dropWhile wsChar).reverse.dropWhile wsChar).reverse
  if t.isEmpty then .val 0
  else
    match parseSignedDec t with
    | some (q, rest) => if rest.isEmpty then .val q else .nan
    | none => .nan

/-- JS `parseFloat(string)`: trims leading whitespace and parses the longest
numeric prefix, NaN when no digits can be consumed. -/
def pfStr (s : String) : JNum :=
  match parseSignedDec (s.data.dropWhile wsChar) with
  | some (q, _) => .val q
  | none => .nan

/-- Model of a JS value as seen by the handlers: the JSON value kinds plus
`undefined` (produced by member access on objects lacking the key). -/
inductive JVal
  | undefined
  | null
  | bool (b : Bool)
  | num (n : JNum)
  | str (s : String)
  | arr (xs : List JVal)
  | obj (kvs : List (String × JVal))

/-- JS truthiness of a value. -/
def jsTruthy : JVal → Bool
  | .undefined => false
  | .null => false
  | .bool b => b
  | .num n => numTruthy n
  | .str s => decide (s ≠ "")
  | .arr _ => true
  | .obj _ => true

/-- JS `a || b`. -/
def jsOr (a b : JVal) : JVal := if jsTruthy a then a else b

/-- JS member access `v.k` on a value that is not null/undefined: objects look
the key up (undefined when absent), other primitives yield undefined. Access on
null or undefined throws in JS; callers guard that case explicitly. -/
def jsMemberD (v : JVal) (k : String) : JVal :=
  match v with
  | .obj kvs => (kvs.lookup k).getD .undefined
  | _ => .undefined

/-- JS optional chaining `v.k1?.k2`. -/
def jsOptMember (v : JVal) (k1 k2 : String) : JVal :=
  match jsMemberD v k1 with
  | .undefined => .undefined
  | .null => .undefined
  | a => jsMemberD a k2

/-- Whether the value is null or undefined (member access on it throws). -/
def isNullish : JVal → Bool
  | .null => true
  | .undefined => true
  | _ => false

/-- Whether the value is `undefined`. -/
def isUndefB : JVal → Bool
  | .undefined => true
  | _ => false

/-- JS strict equality `v === "s"` against a string literal. -/
def isStrEq (v : JVal) (s : String) : Bool :=
  match v with
  | .str t => decide (t = s)
  | _ => false

/-- `Array.isArray(v)`. -/
def isArrayV : JVal → Bool
  | .arr _ => true
  | _ => false

/-- Fraction digits of `num/den` by long division, up to `fuel` digits. -/
def fracDigits : Nat → Nat → Nat → List Char
  | 0, _, _ => []
  | fuel + 1, num, den =>
    if num = 0 then []
    else Char.ofNat (48 + num * 10 / den) :: fracDigits fuel (num * 10 % den) den

/-- Decimal rendering of a rational (default JS number-to-string on the
decimal values flowing through these feeds; capped at 20 fraction digits). -/
def qToString (q : ℚ) : String :=
  let sign := if q < 0 then "-" else ""
  let n := q.num.natAbs
  let d := q.den
  let frac := fracDigits 20 (n % d) d
  sign ++ toString (n / d) ++ (if frac.isEmpty then "" else "." ++ String.mk frac)

/-- JS number-to-string coercion. -/
def jsNumToString : JNum → String
  | .nan => "NaN"
  | .val q => qToString q

/-- String coercion of a JS value as used in template literals, with a depth
bound for nested arrays (`Array.prototype.toString` joins elements with `,`,
plain objects print as `[object Object]`). -/
def jsValToStringF : Nat → JVal → String
  | _, .str s => s
  | _, .num n => jsNumToString n
  | _, .bool b => if b then "true" else "false"
  | _, .null => "null"
  | _, .undefined => "undefined"
  | 0, .arr _ => ""
  | fuel + 1, .arr xs => String.intercalate "," (xs.map (jsValToStringF fuel))
  | _, .obj _ => "[object Object]"

/-- String coercion of a JS value, with ample depth for any wire value. -/
def jsValToString (v : JVal) : String := jsValToStringF 1000 v

/-- JS `Number(v)` coercion of a value. -/
def jsNumberV : JVal → JNum
  | .num n => n
  | .str s => jsStrToNum s
  | .bool b => if b then .val 1 else .val 0
  | .null => .val 0
  | .undefined => .nan
  | v => jsStrToNum (jsValToString v)

/-- JS `parseFloat(v)` on a value: numbers round-trip through their string
form unchanged, everything else is coerced to a string first. -/
def jsParseFloatV : JVal → JNum
  | .num n => n
  | v => pfStr (jsValToString v)

/-- Group the reversed digit list of an integer part with a comma after every
third digit, as `toLocaleString` does. -/
def groupRev : List Char → Nat → List Char
  | [], _ => []
  | c :: r, k => if k = 3 then ',' :: c :: groupRev r 1 else c :: groupRev r (k + 1)

/-- `Number.prototype.toLocaleString()`: thousands separators on the integer
part and at most three fraction digits (half-up), trailing zeros dropped. -/
def jsLocale : JNum → String
  | .nan => "NaN"
  | .val q =>
    let sign := if q < 0 then "-" else ""
    let m := (Int.floor (|q| * 1000 + 1 / 2)).natAbs
    let ip := m / 1000
    let fr := m % 1000
    let ipStr := String.mk (groupRev (toString ip).data.reverse 0).reverse
    let frDigits := (Char.ofNat (48 + fr / 100) :: Char.ofNat (48 + fr / 10 % 10) ::
        [Char.ofNat (48 + fr % 10)]).reverse.dropWhile (fun c => c = '0') |>.reverse
    sign ++ ipStr ++ (if fr = 0 then "" else "." ++ String.mk frDigits)

/-- Skip JSON whitespace. -/
def skipWs : List Char → List Char
  | [] => []
  | c :: r => if c = ' ' ∨ c = '\n' ∨ c = '\t' ∨ c = '\r' then skipWs r else c :: r

/-- Escape mapping inside JSON string literals (the subset these feeds use). -/
def escChar (c : Char) : Char :=
  if c = 'n' then '\n' else if c = 't' then '\t' else if c = 'r' then '\r' else c

/-- Parse the body of a JSON string literal after its opening quote. -/
def pStrAux : List Char → List Char → Option (String × List Char)
  | [], _ => none
  | '"' :: r, acc => some (String.mk acc.reverse, r)
  | '\\' :: c :: r, acc => pStrAux r (escChar c :: acc)
  | '\\' :: [], _ => none
  | c :: r, acc => pStrAux r (c :: acc)

/-- Fuel-bounded recursive-descent parser for one JSON value. The remaining
elements of an array (resp. members of an object) are parsed by re-entering
the function on the rest prefixed with the opening bracket. -/
def pAny : Nat → List Char → Option (JVal × List Char)
  | 0, _ => none
  | fuel + 1, cs0 =>
    match skipWs cs0 with
    | [] => none
    | c :: r =>
      if c = '"' then
        match pStrAux r [] with
        | some p => some (.str p.1, p.2)
        | none => none
      else if c = '[' then
        match skipWs r with
        | ']' :: r2 => some (.arr [], r2)
        | _ =>
          match pAny fuel r with
          | none => none
          | some (v, r2) =>
            match skipWs r2 with
            | ',' :: r3 =>
              (match pAny fuel ('[' :: r3) with
               | some (.arr vs, r4) => some (.arr (v :: vs), r4)
               | _ => none)
            | ']' :: r3 => some (.arr [v], r3)
            | _ => none
      else if c = Char.ofNat 123 then
        match skipWs r with
        | c2 :: r2 =>
          if c2 = Char.ofNat 125 then some (.obj [], r2)
          else if c2 = '"' then
            match pStrAux r2 [] with
            | none => none
            | some (k, r3) =>
              match skipWs r3 with
              | ':' :: r4 =>
                match pAny fuel r4 with
                | none => none
                | some (v, r5) =>
                  match skipWs r5 with
                  | ',' :: r6 =>
                    (match pAny fuel (Char.ofNat 123 :: r6) with
                     | some (.obj kvs, r7) => some (.obj ((k, v) :: kvs), r7)
                     | _ => none)
                  | c3 :: r6 => if c3 = Char.ofNat 125 then some (.obj [(k, v)], r6) else none
                  | _ => none
              | _ => none
          else none
        | [] => none
      else if (c :: r).take 4 = ['t', 'r', 'u', 'e'] then some (.bool true, ((c :: r).drop 4))
      else if (c :: r).take 5 = ['f', 'a', 'l', 's', 'e'] then some (.bool false, ((c :: r).drop 5))
      else if (c :: r).take 4 = ['n', 'u', 'l', 'l'] then some (.null, ((c :: r).drop 4))
      else
        match parseSignedDec (c :: r) with
        | some (q, rest) => some (.num (.val q), rest)
        | none => none

/-- `JSON.parse`: parse one value and require only whitespace to remain;
`none` models the thrown `SyntaxError`. -/
def jsonParse (s : String) : Option JVal :=
  match pAny (2 * s.length + 2) s.data with
  | some (v, rest) => if (skipWs rest).isEmpty then some v else none
  | none => none

/-- JS `s.includes(pat)`. -/
def strIncludes (s pat : String) : Bool := containsL pat.data s.data

/-- The Huobi topic regex `/public\.(.+?)\.liquidation_orders/` on the feed's
topic strings: the nonempty capture between the first `public.` and the next
`.liquidation_orders`. -/
def matchTopic (s : String) : Option String :=
  match s.splitOn "public." with
  | [] => none
  | [_] => none
  | _ :: t1 :: trest =>
    let after := String.intercalate "public." (t1 :: trest)
    match after.splitOn ".liquidation_orders" with
    | [] => none
    | [_] => none
    | cap :: _ :: _ => if cap = "" then none else some cap

/-- An inbound Huobi frame: a text frame carries its string directly; a binary
frame carries the result of `zlib.gunzipSync(data).toString()`, with `none`
when decompression throws. -/
inductive HuobiIn
  | rawStr (s : String)
  | rawBin (gunzip : Option String)

/-- The decompression step of the Huobi message handler
(`typeof data === 'string' ? data : zlib.gunzipSync(data).toString()`). -/
def huobiText : HuobiIn → Option String
  | .rawStr s => some s
  | .rawBin g => g

/-- Observable outcome of one Huobi `ws.on('message')` invocation. -/
inductive HuobiStep
  | silentDrop
  | pongReply
  | throwUncaught
  | event (texto : String)
deriving DecidableEq

/-- Display side of a Huobi liquidation: `d.direction === 'buy' ? 'Long' : 'Short'`
(part_000 line 160). -/
def huobiSide (dir : JVal) : String := if isStrEq dir "buy" then "Long" else "Short"

/-- `conectarHuobi`'s message handler (part_000 lines 144-165). Only the
`gunzipSync` call sits inside a try/catch; both `JSON.parse` calls, the member
accesses on a null parse result, and the `match(...)[1]` on a failed regex run
outside it, so those failures escape the frame boundary. -/
def conectarHuobiOnMessage (data : HuobiIn) : HuobiStep :=
  match huobiText data with
  | none => .silentDrop
  | some text =>
    if strIncludes text "ping" then
      match jsonParse text with
      | none => .throwUncaught
      | some j => if isNullish j then .throwUncaught else .pongReply
    else
      match jsonParse text with
      | none => .throwUncaught
      | some msg =>
        if isNullish msg then .throwUncaught
        else if jsTruthy (jsMemberD msg "topic") = false ∨ jsTruthy (jsMemberD msg "data") = false then
          .silentDrop
        else
          match jsMemberD msg "topic" with
          | .str topic =>
            match matchTopic topic with
            | none => .throwUncaught
            | some par =>
              let d := jsMemberD msg "data"
              let price := jsParseFloatV (jsMemberD d "price")
              let qty := jsParseFloatV (jsMemberD d "vol")
              let side := huobiSide (jsMemberD d "direction")
              let monto :=
                if price ≠ JNum.nan ∧ qty ≠ JNum.nan then jsLocale (jnMul price qty) else "–"
              let atPrice := if price = JNum.nan then "–" else jsNumToString price
              .event ("🔵 #" ++ strToUpper par ++ " Liquidated " ++ side ++ ": $" ++ monto ++
                " at $" ++ atPrice)
          | _ => .throwUncaught

/-- `const price = Number(d.fillPx || d.bkPx || 0)` (index.js line 217),
before the `Number` coercion. -/
def okxRawPx (d : JVal) : JVal :=
  jsOr (jsMemberD d "fillPx") (jsOr (jsMemberD d "bkPx") (JVal.num (JNum.val 0)))

/-- `const qty = Number(d.sz || d.accFillSz || 0)` (index.js line 218),
before the `Number` coercion. -/
def okxRawQty (d : JVal) : JVal :=
  jsOr (jsMemberD d "sz") (jsOr (jsMemberD d "accFillSz") (JVal.num (JNum.val 0)))

/-- OKX liquidation price as a JS number. -/
def okxPrice (d : JVal) : JNum := jsNumberV (okxRawPx d)

/-- OKX liquidation quantity as a JS number. -/
def okxQty (d : JVal) : JNum := jsNumberV (okxRawQty d)

/-- `const usd = price && qty ? `$(price*qty).toLocaleString()` : "$–"`
(index.js line 219). -/
def okxUsd (d : JVal) : String :=
  if numTruthy (okxPrice d) && numTruthy (okxQty d) then
    "$" ++ jsLocale (jnMul (okxPrice d) (okxQty d))
  else "$–"

/-- `const tipo = d.side === "buy" ? "buy" : "sell"` (index.js line 220). -/
def okxTipo (side : JVal) : String := if isStrEq side "buy" then "buy" else "sell"

/-- Per-item output of the OKX message handler: the event type passed to
`addEvento` and the text passed to `logYEncolar`. -/
structure OkxOut where
  tipo : String
  texto : String
deriving DecidableEq

/-- One iteration of `msg.data.forEach(d => ...)` (index.js lines 216-224). -/
def okxItem (d : JVal) : OkxOut :=
  let price := okxPrice d
  let usd := okxUsd d
  let tipo := okxTipo (jsMemberD d "side")
  let emoji := if tipo = "buy" then "🟩" else "🟥"
  let instId := jsValToString (jsOr (jsMemberD d "instId") (JVal.str "unknown"))
  let atPrice := if numTruthy price then jsNumToString price else "–"
  ⟨tipo, emoji ++ " [OKX] #" ++ instId ++ " Liquidated " ++
    (if tipo = "buy" then "Long" else "Short") ++ ": " ++ usd ++ " at $" ++ atPrice⟩

/-- `msg.data.forEach(...)`: items are processed in order; member access on a
null or undefined item throws inside the handler's try, so processing stops
there (items already handled keep their effects) and the error is caught. -/
def okxForEach : List JVal → List OkxOut × Bool
  | [] => ([], false)
  | d :: rest =>
    if isNullish d then ([], true)
    else
      match okxForEach rest with
      | (outs, thr) => (okxItem d :: outs, thr)

/-- Shape guard of the OKX handler (index.js line 215):
`msg.arg?.channel === "liquidation-orders" && Array.isArray(msg.data)`. -/
def okxChannelOk (msg : JVal) : Bool :=
  isStrEq (jsOptMember msg "arg" "channel") "liquidation-orders" && isArrayV (jsMemberD msg "data")

/-- The parsed-message stage of the OKX handler: non-matching shapes produce
nothing; matching shapes process every data item. -/
def okxProcessMsg (msg : JVal) : List OkxOut × Bool :=
  if okxChannelOk msg then
    match jsMemberD msg "data" with
    | .arr ds => okxForEach ds
    | _ => ([], false)
  else ([], false)

/-- The whole OKX `ws.on("message")` handler (index.js lines 211-230): the
entire body runs inside try/catch, so a parse failure is caught and logged
(second component true) and never escapes the frame boundary. -/
def okxOnMessage (raw : String) : List OkxOut × Bool :=
  match jsonParse raw with
  | none => ([], true)
  | some msg => okxProcessMsg msg

/-- A convenient well-shaped OKX liquidation message wrapping a data array. -/
def mkOKXMsg (ds : List JVal) : JVal :=
  JVal.obj [("arg", JVal.obj [("channel", JVal.str "liquidation-orders")]), ("data", JVal.arr ds)]

/-- Binance liquidation price `Number(msg.o.p || 0)` (index.js line 259). -/
def binanceP (o : JVal) : JNum := jsNumberV (jsOr (jsMemberD o "p") (JVal.num (JNum.val 0)))

/-- Binance liquidation quantity `Number(msg.o.q || 0)` (index.js line 260). -/
def binanceQ (o : JVal) : JNum := jsNumberV (jsOr (jsMemberD o "q") (JVal.num (JNum.val 0)))

/-- `const usd = p && q ? `$(p*q).toLocaleString()` : "$–"` (index.js line 261). -/
def binanceUsd (o : JVal) : String :=
  if numTruthy (binanceP o) && numTruthy (binanceQ o) then
    "$" ++ jsLocale (jnMul (binanceP o) (binanceQ o))
  else "$–"

/-- `const tipo = msg.o.S.toUpperCase() === "BUY" ? "buy" : "sell"`
(index.js line 262), for a string side value. -/
def binanceTipo (S : String) : String := if strToUpper S = "BUY" then "buy" else "sell"

/-- `const precio = entry.price || '–'` (part_006 line 37). -/
def part006Precio (entry : JVal) : JVal := jsOr (jsMemberD entry "price") (JVal.str "–")

/-- `const monto = (parseFloat(entry.sz) * parseFloat(precio) || '–').toLocaleString()`
(part_006 line 38): the fallback applies before `toLocaleString`, and
`'–'.toLocaleString()` is `'–'` itself. -/
def part006Monto (entry : JVal) : String :=
  let prod := jnMul (jsParseFloatV (jsMemberD entry "sz")) (jsParseFloatV (part006Precio entry))
  if numTruthy prod then jsLocale prod else "–"

/-- Token-bucket capacity (index.js line 24). -/
def TOKEN_CAP : ℚ := 20

/-- `refillTokens` (index.js lines 56-61):
`availableTokens = Math.min(TOKEN_CAP, availableTokens + elapsed * REFILL_RATE)`
with `elapsed = (now - lastRefill) / 1000`. -/
def refillTokens (availableTokens lastRefill now rate : ℚ) : ℚ :=
  min TOKEN_CAP (availableTokens + (now - lastRefill) / 1000 * rate)

/-- Hard Telegram payload ceiling (index.js line 31). -/
def MAX_TG_LENGTH : Nat := 4000

/-- Pivot batch size (index.js line 30). -/
def AGRUPA_TAMANO : Nat := 5

/-- A queued outbound message (index.js line 120). -/
structure Msg where
  text : String
  timestamp : Nat
deriving DecidableEq

/-- `encolarMensaje` (index.js lines 118-122): append only nonempty strings. -/
def encolarMensaje (text : String) (timestamp : Nat) (queue : List Msg) : List Msg :=
  if text.length ≠ 0 then queue ++ [⟨text, timestamp⟩] else queue

/-- `String(n).padStart(2, '0')`. -/
def pad2 (n : Nat) : String :=
  if n < 10 then "0" ++ toString n else toString n

/-- `formatHora` (index.js lines 48-54): UTC clock fields of `ts - 3h`. -/
def formatHora (ts : Nat) : String :=
  let ms : Int := (ts : Int) - 3 * 60 * 60 * 1000
  let h := ((ms / 3600000) % 24).toNat
  let m := ((ms / 60000) % 60).toNat
  let s := ((ms / 1000) % 60).toNat
  "[" ++ pad2 h ++ ":" ++ pad2 m ++ ":" ++ pad2 s ++ " GMT-3]"

/-- The inner packing loop of the drain cycle (index.js lines 71-80): shift
head messages into the batch while the counted length (text + 1 per message)
stays within `MAX_TG_LENGTH`, stopping at `AGRUPA_TAMANO` items. Returns the
batch and the remaining queue. -/
def empaquetar : List Msg → Nat → List Msg → List Msg × List Msg
  | [], _, acc => (acc.reverse, [])
  | next :: rest, charCount, acc =>
    if MAX_TG_LENGTH < charCount + next.text.length + 1 then (acc.reverse, next :: rest)
    else if AGRUPA_TAMANO ≤ acc.length + 1 then ((next :: acc).reverse, rest)
    else empaquetar rest (charCount + next.text.length + 1) (next :: acc)

/-- The payload built for one batch (index.js lines 83-88): header with the
first item's time and the batch size, then one timestamped line per message. -/
def mkLote (lote : List Msg) : String :=
  match lote with
  | [] => ""
  | first :: _ =>
    formatHora first.timestamp ++ " *Resumen de " ++ toString lote.length ++
      " liquidaciones:*\n" ++
      String.intercalate "\n" (lote.map fun i => formatHora i.timestamp ++ " " ++ i.text)

/-- Result of one drain callback (index.js lines 63-94): the batches sent (in
order), the remaining queue, the remaining tokens, and whether the callback
threw (`loteItems[0]` of an empty batch, i.e. the head message alone exceeds
the ceiling, raises a TypeError that rejects the async callback). -/
structure DrainRes where
  batches : List (List Msg)
  queue : List Msg
  tokens : ℚ
  errored : Bool
deriving DecidableEq

/-- The outer `while (availableTokens >= 1 && messageQueue.length)` loop of
the drain callback, with fuel bounding the iteration count (each completed
iteration consumes at least one queued message, so `queue.length` suffices). -/
def drainLoop : Nat → ℚ → List Msg → DrainRes
  | 0, tokens, queue => ⟨[], queue, tokens, false⟩
  | fuel + 1, tokens, queue =>
    if 1 ≤ tokens then
      match queue with
      | [] => ⟨[], [], tokens, false⟩
      | q1 :: qrest =>
        match empaquetar (q1 :: qrest) 0 [] with
        | ([], _) => ⟨[], q1 :: qrest, tokens, true⟩
        | (l1 :: lrest, rest) =>
          let r := drainLoop fuel (tokens - 1) rest
          ⟨(l1 :: lrest) :: r.batches, r.queue, r.tokens, r.errored⟩
    else ⟨[], queue, tokens, false⟩

/-- One drain tick after the refill, on the current token count and queue. -/
def drainTick (tokens : ℚ) (queue : List Msg) : DrainRes :=
  drainLoop queue.length tokens queue

/-- A Telegram API reply body: `ok`, `error_code`, `parameters.retry_after`. -/
structure TgResp where
  ok : Bool
  error_code : Option Nat
  retry_after : Option Nat
deriving DecidableEq

/-- Outcome of one `fetch` of the Telegram API: a network/JSON failure
(caught, logged, message abandoned) or a parsed reply body. -/
inductive FetchOutcome
  | netErr
  | resp (r : TgResp)
deriving DecidableEq

/-- Observable events of `sendToTelegram` (index.js lines 96-116). -/
inductive SendEvent
  | credsMissing
  | sent (text : String)
  | retrySched (waitMs : Nat)
  | okDone
  | errorLogged
  | fetchErrLogged
deriving DecidableEq

/-- `sendToTelegram(text, retryCount)` driven by the list of successive fetch
outcomes: on a 429 with `retryCount < 3` the same `text` is re-sent after
`Math.max(retry_after * 1000 || 0, 2^retryCount * 1000)` ms; any other failure
is logged and the payload dropped. The queue is never touched here. -/
def sendToTelegram : Bool → List FetchOutcome → String → Nat → List SendEvent
  | false, _, _, _ => [.credsMissing]
  | true, [], _, _ => []
  | true, .netErr :: _, text, _ => [.sent text, .fetchErrLogged]
  | true, .resp r :: rest, text, retryCount =>
    .sent text ::
      (if r.ok then [.okDone]
       else if r.error_code = some 429 ∧ retryCount < 3 then
         .retrySched (max (r.retry_after.getD 0 * 1000) (2 ^ retryCount * 1000)) ::
           sendToTelegram true rest text (retryCount + 1)
       else [.errorLogged])

/-- The texts actually posted by a send trace. -/
def sentTexts (tr : List SendEvent) : List String :=
  tr.filterMap fun e =>
    match e with
    | .sent t => some t
    | _ => none

/-- Number of transmissions in a send trace. -/
def countSent (tr : List SendEvent) : Nat := (sentTexts tr).length

/-- A time-stamped BUY/SELL event of the sliding window (index.js line 163). -/
structure Evento where
  ts : Nat
  tipo : String
deriving DecidableEq

/-- The window filter `eventos.filter(e => e.ts >= ahora - windowMs)`. -/
def recientesDe (ahora windowMs : Nat) (eventos : List Evento) : List Evento :=
  eventos.filter fun e => decide (ahora - windowMs ≤ e.ts)

/-- Count of BUY events in a window. -/
def buyCount (evs : List Evento) : Nat :=
  (evs.filter fun e => decide (e.tipo = "buy")).length

/-- `(q).toFixed(1)` as a rational: round half-up to one decimal. -/
def toFixed1Q (q : ℚ) : ℚ := ((⌊10 * q + 1 / 2⌋ : ℤ) : ℚ) / 10

/-- `(q).toFixed(1)` as the rendered string. -/
def toFixed1Str (q : ℚ) : String :=
  let n := ⌊10 * q + 1 / 2⌋
  let a := n.natAbs
  (if n < 0 then "-" else "") ++ toString (a / 10) ++ "." ++ toString (a % 10)

/-- `resumenEstadisticas(windowMs)` (index.js lines 167-178), with the wall
clock passed explicitly: `null` when the window is empty, else the summary
line with one-decimal percentages of BUY and SELL = total - BUY. -/
def resumenEstadisticas (ahora windowMs : Nat) (eventos : List Evento) : Option String :=
  let recientes := recientesDe ahora windowMs eventos
  let total := recientes.length
  if total = 0 then none
  else
    let buy := buyCount recientes
    let sell := total - buy
    let pctBuy := toFixed1Str ((buy : ℚ) / (total : ℚ) * 100)
    let pctSell := toFixed1Str ((sell : ℚ) / (total : ℚ) * 100)
    let label := toFixed1Str ((windowMs : ℚ) / 60000) ++ " min"
    some ("• *" ++ label ++ "* → Total: " ++ toString total ++ ", BUY: " ++ toString buy ++
      " (" ++ pctBuy ++ "%), SELL: " ++ toString sell ++ " (" ++ pctSell ++ "%)")

/-- The whole in-memory state read by the health endpoint. -/
structure BotState where
  messageQueue : List Msg
  eventos : List Evento
  availableTokens : ℚ
  lastRefill : Nat
  okxConnected : Bool
  binanceConnected : Bool
  lastMessageSent : Option String
  startTime : Nat
deriving DecidableEq

/-- The JSON body produced by `GET /health`. -/
structure HealthResp where
  status : String
  uptime : String
  messagesInQueue : Nat
  lastMessageSent : Option String
  okx : Bool
  binance : Bool
  total : Nat
  buy : Nat
  sell : Nat
deriving DecidableEq

/-- `app.get("/health")` (index.js lines 131-148): compute uptime and the
5-minute window counts and reply; every access is a read, so the state is
returned unchanged. -/
def healthHandler (s : BotState) (now : Nat) : HealthResp × BotState :=
  let uptimeMs := now - s.startTime
  let hrs := pad2 (uptimeMs / 3600000)
  let mins := pad2 (uptimeMs % 3600000 / 60000)
  let secs := pad2 (uptimeMs % 60000 / 1000)
  let recientes := recientesDe now (5 * 60 * 1000) s.eventos
  let total := recientes.length
  let buy := buyCount recientes
  let sell := total - buy
  (⟨"ok", hrs ++ ":" ++ mins ++ ":" ++ secs, s.messageQueue.length, s.lastMessageSent,
      s.okxConnected, s.binanceConnected, total, buy, sell⟩, s)

/-- A 1980-character message text. -/
def bigText : String := String.mk (List.replicate 1980 'a')

/-- First oversized-batch probe message. -/
def bigMsg1 : Msg := ⟨bigText, 10800000⟩

/-- Second oversized-batch probe message. -/
def bigMsg2 : Msg := ⟨bigText, 10800000⟩

/-- A message whose text alone exceeds the ceiling (4000 characters). -/
def hugeMsg : Msg := ⟨String.mk (List.replicate 4000 'b'), 10800000⟩

/-- Three short scenario messages. -/
def msgA : Msg := ⟨"m1", 10800000⟩

/-- Second short scenario message. -/
def msgB : Msg := ⟨"m2", 10800000⟩

/-- Third short scenario message. -/
def msgC : Msg := ⟨"m3", 10800000⟩

/-- Six short messages for the batching-threshold scenario. -/
def sixShort : List Msg :=
  [⟨"m1", 10800000⟩, ⟨"m2", 10800000⟩, ⟨"m3", 10800000⟩,
   ⟨"m4", 10800000⟩, ⟨"m5", 10800000⟩, ⟨"m6", 10800000⟩]

/-- The 3 BUY + 1 SELL events of the five-minute scenario. -/
def escenario4 : List Evento :=
  [⟨999000, "buy"⟩, ⟨999100, "buy"⟩, ⟨999200, "buy"⟩, ⟨999300, "sell"⟩]

end TgBot

namespace TgBot

/-- A falsy left operand makes JS `||` return its right operand. -/
theorem jsOr_falsy (a b : JVal) (h : jsTruthy a = false) : jsOr a b = b := by
  simp [jsOr, h]

/-- NaN absorbs multiplication on the left. -/
theorem jnMul_nan_left (b : JNum) : jnMul JNum.nan b = JNum.nan := by
  cases b <;> rfl

/-- NaN absorbs multiplication on the right. -/
theorem jnMul_nan_right (a : JNum) : jnMul a JNum.nan = JNum.nan := by
  cases a <;> rfl

/-- With both price fields missing or falsy, the OKX price falls back to 0. -/
theorem okxPrice_missing (d : JVal) (h1 : jsTruthy (jsMemberD d "fillPx") = false)
    (h2 : jsTruthy (jsMemberD d "bkPx") = false) : okxPrice d = JNum.val 0 := by
  unfold okxPrice okxRawPx
  rw [jsOr_falsy _ _ h1, jsOr_falsy _ _ h2]
  rfl

/-- With both quantity fields missing or falsy, the OKX quantity falls back to 0. -/
theorem okxQty_missing (d : JVal) (h1 : jsTruthy (jsMemberD d "sz") = false)
    (h2 : jsTruthy (jsMemberD d "accFillSz") = false) : okxQty d = JNum.val 0 := by
  unfold okxQty okxRawQty
  rw [jsOr_falsy _ _ h1, jsOr_falsy _ _ h2]
  rfl

/-- C1: the claim says every frame that fails to parse or match the expected
shape yields no event and never throws past the frame boundary. The Huobi
handler violates this: its try/catch covers only `gunzipSync`, so a text frame
(or a successfully decompressed binary frame) that is not valid JSON reaches
the unguarded `JSON.parse` and the exception escapes the message handler,
while only decompression failures are silently dropped. -/
theorem C1_malformed_huobi_frame_throws :
    conectarHuobiOnMessage (HuobiIn.rawStr "hola") = HuobiStep.throwUncaught ∧
    conectarHuobiOnMessage (HuobiIn.rawBin (some "hola")) = HuobiStep.throwUncaught ∧
    conectarHuobiOnMessage (HuobiIn.rawBin none) = HuobiStep.silentDrop := by
  refine ⟨by decide, by decide, by decide⟩

/-- C2: an event with unknown (missing or non-numeric) price or quantity
renders the notional as the sentinel "$–" — never "$0" and never "$NaN" — in
the OKX handler of index.js, the Binance handler of index.js, and the OKX
handler of part_006. -/
theorem C2_unknown_price_or_qty_renders_dash (d o entry : JVal) :
    ((jsTruthy (jsMemberD d "fillPx") = false ∧ jsTruthy (jsMemberD d "bkPx") = false) ∨
        okxPrice d = JNum.nan ∨
        (jsTruthy (jsMemberD d "sz") = false ∧ jsTruthy (jsMemberD d "accFillSz") = false) ∨
        okxQty d = JNum.nan →
      okxUsd d = "$–" ∧ okxUsd d ≠ "$0" ∧ okxUsd d ≠ "$NaN") ∧
    (jsTruthy (jsMemberD o "p") = false ∨ binanceP o = JNum.nan ∨
        jsTruthy (jsMemberD o "q") = false ∨ binanceQ o = JNum.nan →
      binanceUsd o = "$–" ∧ binanceUsd o ≠ "$0" ∧ binanceUsd o ≠ "$NaN") ∧
    (isUndefB (jsMemberD entry "price") = true ∨
        jsParseFloatV (part006Precio entry) = JNum.nan ∨
        jsParseFloatV (jsMemberD entry "sz") = JNum.nan →
      part006Monto entry = "–" ∧ "$" ++ part006Monto entry = "$–") := by
  refine ⟨?_, ?_, ?_⟩
  · intro h
    have husd : okxUsd d = "$–" := by
      rcases h with ⟨h1, h2⟩ | hpx | ⟨h1, h2⟩ | hqt
      · have hz := okxPrice_missing d h1 h2
        simp [okxUsd, hz, numTruthy]
      · simp [okxUsd, hpx, numTruthy]
      · have hz := okxQty_missing d h1 h2
        simp [okxUsd, hz, numTruthy]
      · simp [okxUsd, hqt, numTruthy]
    exact ⟨husd, by rw [husd]; decide, by rw [husd]; decide⟩
  · intro h
    have husd : binanceUsd o = "$–" := by
      rcases h with h1 | hp | h1 | hq
      · have hz : binanceP o = JNum.val 0 := by
          unfold binanceP
          rw [jsOr_falsy _ _ h1]
          rfl
        simp [binanceUsd, hz, numTruthy]
      · simp [binanceUsd, hp, numTruthy]
      · have hz : binanceQ o = JNum.val 0 := by
          unfold binanceQ
          rw [jsOr_falsy _ _ h1]
          rfl
        simp [binanceUsd, hz, numTruthy]
      · simp [binanceUsd, hq, numTruthy]
    exact ⟨husd, by rw [husd]; decide, by rw [husd]; decide⟩
  · intro h
    have hm : part006Monto entry = "–" := by
      have hpre : jsParseFloatV (part006Precio entry) = JNum.nan ∨
          jsParseFloatV (jsMemberD entry "sz") = JNum.nan := by
        rcases h with hu | hp | hs
        · left
          have hv : jsMemberD entry "price" = JVal.undefined := by
            cases hv2 : jsMemberD entry "price" <;> simp_all [isUndefB]
          have hstr : part006Precio entry = JVal.str "–" := by
            unfold part006Precio
            rw [hv]
            rfl
          rw [hstr]
          decide
        · exact Or.inl hp
        · exact Or.inr hs
      rcases hpre with hp | hs
      · simp [part006Monto, hp, jnMul_nan_right, numTruthy]
      · simp [part006Monto, hs, jnMul, numTruthy]
    exact ⟨hm, by rw [hm]; decide⟩

/-- Witness for C2: an OKX data item with no price and no quantity fields. -/
theorem C2_unknown_price_or_qty_renders_dash_witness :
    okxUsd (JVal.obj []) = "$–" ∧ okxUsd (JVal.obj []) ≠ "$0" ∧
    okxUsd (JVal.obj []) ≠ "$NaN" :=
  (C2_unknown_price_or_qty_renders_dash (JVal.obj []) (JVal.obj []) (JVal.obj [])).1
    (Or.inl ⟨by decide, by decide⟩)

/-- C10: side canonicalization defaults to SELL. Any OKX side value that is
not exactly the string "buy" is classified "sell"; any Binance side whose
upper-casing is not "BUY" is classified "sell"; any Huobi direction that is
not "buy" renders "Short"; and the OKX handler processes every item of a
liquidation message regardless of its side vocabulary (nothing rejected,
flagged or dropped). -/
theorem C10_unrecognized_side_counts_as_sell (side dir : JVal) (S : String) (ds : List JVal) :
    (isStrEq side "buy" = false → okxTipo side = "sell") ∧
    (strToUpper S ≠ "BUY" → binanceTipo S = "sell") ∧
    (isStrEq dir "buy" = false → huobiSide dir = "Short") ∧
    ((∀ d ∈ ds, isNullish d = false) → okxForEach ds = (ds.map okxItem, false)) := by
  refine ⟨?_, ?_, ?_, ?_⟩
  · intro h
    simp [okxTipo, h]
  · intro h
    simp [binanceTipo, h]
  · intro h
    simp [huobiSide, h]
  · intro h
    induction ds with
    | nil => rfl
    | cons d rest ih =>
      have hd : isNullish d = false := h d (List.mem_cons_self d rest)
      have hrest := ih (fun x hx => h x (List.mem_cons_of_mem d hx))
      simp [okxForEach, hd, hrest]

/-- Witness for C10: an unrecognized OKX side, a Binance "Sell", a numeric
Huobi direction, and a one-item data array with no side at all. -/
theorem C10_unrecognized_side_counts_as_sell_witness :
    okxTipo (JVal.str "liq") = "sell" ∧ binanceTipo "Sell" = "sell" ∧
    huobiSide (JVal.num (JNum.val 1)) = "Short" ∧
    okxForEach [JVal.obj []] = ([JVal.obj []].map okxItem, false) :=
  ⟨(C10_unrecognized_side_counts_as_sell (JVal.str "liq") (JVal.num (JNum.val 1)) "Sell"
      [JVal.obj []]).1 (by decide),
   (C10_unrecognized_side_counts_as_sell (JVal.str "liq") (JVal.num (JNum.val 1)) "Sell"
      [JVal.obj []]).2.1 (by decide),
   (C10_unrecognized_side_counts_as_sell (JVal.str "liq") (JVal.num (JNum.val 1)) "Sell"
      [JVal.obj []]).2.2.1 (by decide),
   (C10_unrecognized_side_counts_as_sell (JVal.str "liq") (JVal.num (JNum.val 1)) "Sell"
      [JVal.obj []]).2.2.2 (by decide)⟩

/-- C5: the claim says the reconnect delay after the n-th consecutive failure is
base * 2^min(n, 5) with the attempts counter reset only on a successful open.
The code instead re-initialises the counter on every `connectOKX` call, so three
consecutive failed attempts (one close each) all get the base 1000 ms delay;
the per-invocation formula only grows when several events fire on one socket. -/
theorem C5_backoff_counter_resets_every_attempt :
    reconnectDelaysAcrossAttempts
        [[SockEvent.close], [SockEvent.close], [SockEvent.close]] = [1000, 1000, 1000] ∧
    List.map specBackoffDelay [0, 1, 2] = [1000, 2000, 4000] ∧
    reconnectDelaysAcrossAttempts
        [[SockEvent.close], [SockEvent.close], [SockEvent.close]] ≠
      List.map specBackoffDelay [0, 1, 2] ∧
    restartDelaysOneSocket 0 [SockEvent.close, SockEvent.close, SockEvent.close] =
      List.map specBackoffDelay [0, 1, 2] := by
  refine ⟨by decide, by decide, by decide, by decide⟩

/-- C7: a token-bucket refill never raises the available tokens above the
capacity 20 and never decreases them, for any nonnegative elapsed wall-clock
time and refill rate, given the program invariant `tokens ≤ TOKEN_CAP`. -/
theorem C7_refill_bounded_monotone (tokens lastRefill now rate : ℚ)
    (h1 : lastRefill ≤ now) (h2 : 0 ≤ rate) (h3 : tokens ≤ TOKEN_CAP) :
    refillTokens tokens lastRefill now rate ≤ TOKEN_CAP ∧
    tokens ≤ refillTokens tokens lastRefill now rate := by
  constructor
  · exact min_le_left _ _
  · have hnn : 0 ≤ (now - lastRefill) / 1000 * rate := by
      have hd : 0 ≤ (now - lastRefill) / 1000 := by
        have : (0 : ℚ) ≤ now - lastRefill := by linarith
        positivity
      exact mul_nonneg hd h2
    exact le_min h3 (by linarith)

/-- The packing loop splits the queue: batch plus remainder is exactly the
accumulated prefix followed by the input queue. -/
theorem empaquetar_split (q : List Msg) : ∀ (c : Nat) (acc : List Msg),
    (empaquetar q c acc).1 ++ (empaquetar q c acc).2 = acc.reverse ++ q := by
  induction q with
  | nil =>
    intro c acc
    simp [empaquetar]
  | cons next rest ih =>
    intro c acc
    by_cases h1 : MAX_TG_LENGTH < c + next.text.length + 1
    · simp [empaquetar, h1]
    · by_cases h2 : AGRUPA_TAMANO ≤ acc.length + 1
      · simp [empaquetar, h1, h2]
      · have hrec := ih (c + next.text.length + 1) (next :: acc)
        simp [empaquetar, h1, h2, hrec]

/-- Every drain run takes batches from the head of the queue in order: the
concatenation of all batch items followed by the remaining queue is the
original queue, for any token budget and fuel. -/
theorem drainLoop_fifo (fuel : Nat) : ∀ (tokens : ℚ) (queue : List Msg),
    (drainLoop fuel tokens queue).batches.flatten ++ (drainLoop fuel tokens queue).queue =
      queue := by
  induction fuel with
  | zero =>
    intro tokens queue
    simp [drainLoop]
  | succ fuel ih =>
    intro tokens queue
    by_cases ht : 1 ≤ tokens
    · match queue with
      | [] => simp [drainLoop, ht]
      | q1 :: qrest =>
        match hem : empaquetar (q1 :: qrest) 0 [] with
        | ([], rest2) => simp [drainLoop, ht, hem]
        | (l1 :: lrest, rest) =>
          have hsplit := empaquetar_split (q1 :: qrest) 0 []
          rw [hem] at hsplit
          simp only [List.reverse_nil, List.nil_append] at hsplit
          have hrec := ih (tokens - 1) rest
          simp [drainLoop, ht, hem, List.append_assoc, hrec]
          injection hsplit with hh1 hh2
          exact ⟨hh1, hh2⟩
    · simp [drainLoop, ht]

/-- Every transmission of a send trace posts the original text. -/
theorem sendToTelegram_same_text (outcomes : List FetchOutcome) (text : String) :
    ∀ (rc : Nat) (t : String), t ∈ sentTexts (sendToTelegram true outcomes text rc) →
      t = text := by
  induction outcomes with
  | nil =>
    intro rc t ht
    simp [sendToTelegram, sentTexts] at ht
  | cons o rest ih =>
    intro rc t ht
    match o with
    | .netErr =>
      simp [sendToTelegram, sentTexts] at ht
      exact ht
    | .resp r =>
      by_cases hok : r.ok
      · simp [sendToTelegram, hok, sentTexts] at ht
        exact ht
      · by_cases hc : r.error_code = some 429 ∧ rc < 3
        · simp [sendToTelegram, hok, hc, sentTexts] at ht
          rcases ht with ht | ht
          · exact ht
          · exact ih (rc + 1) t (by simpa [sentTexts] using ht)
        · simp [sendToTelegram, hok, hc, sentTexts] at ht
          exact ht

/-- The number of transmissions is bounded by one initial send plus the
remaining retry budget. -/
theorem sendToTelegram_countSent (outcomes : List FetchOutcome) (text : String) :
    ∀ rc : Nat, countSent (sendToTelegram true outcomes text rc) ≤ 1 + (3 - rc) := by
  induction outcomes with
  | nil =>
    intro rc
    simp [sendToTelegram, countSent, sentTexts]
  | cons o rest ih =>
    intro rc
    match o with
    | .netErr => simp [sendToTelegram, countSent, sentTexts]
    | .resp r =>
      by_cases hok : r.ok
      · simp [sendToTelegram, hok, countSent, sentTexts]
      · by_cases hc : r.error_code = some 429 ∧ rc < 3
        · have hrec := ih (rc + 1)
          simp [sendToTelegram, hok, hc, countSent, sentTexts] at hrec ⊢
          omega
        · simp [sendToTelegram, hok, hc, countSent, sentTexts]

/-- Rounding two complementary percentages half-up to one decimal keeps their
sum within one tenth of 100. -/
theorem toFixed1Q_pair_sum (x : ℚ) :
    |toFixed1Q x + toFixed1Q (100 - x) - 100| ≤ 1 / 10 := by
  unfold toFixed1Q
  have hA1 : ((⌊10 * x + 1 / 2⌋ : ℤ) : ℚ) ≤ 10 * x + 1 / 2 := Int.floor_le _
  have hA2 : 10 * x + 1 / 2 < (⌊10 * x + 1 / 2⌋ : ℤ) + 1 := Int.lt_floor_add_one _
  have hB1 : ((⌊10 * (100 - x) + 1 / 2⌋ : ℤ) : ℚ) ≤ 10 * (100 - x) + 1 / 2 := Int.floor_le _
  have hB2 : 10 * (100 - x) + 1 / 2 < (⌊10 * (100 - x) + 1 / 2⌋ : ℤ) + 1 :=
    Int.lt_floor_add_one _
  have hint : (1000 : ℤ) ≤ ⌊10 * x + 1 / 2⌋ + ⌊10 * (100 - x) + 1 / 2⌋ := by
    have h9 : (999 : ℚ) < ((⌊10 * x + 1 / 2⌋ + ⌊10 * (100 - x) + 1 / 2⌋ : ℤ) : ℚ) := by
      push_cast
      linarith
    have h9i : (999 : ℤ) < ⌊10 * x + 1 / 2⌋ + ⌊10 * (100 - x) + 1 / 2⌋ := by
      exact_mod_cast h9
    omega
  have hintq : (1000 : ℚ) ≤ ((⌊10 * x + 1 / 2⌋ : ℤ) : ℚ) + ((⌊10 * (100 - x) + 1 / 2⌋ : ℤ) : ℚ) := by
    exact_mod_cast hint
  rw [abs_le]
  constructor <;> linarith

/-- Witness for C7 at a concrete state: tokens 5, refill after 2 seconds at
rate 0.3. -/
theorem C7_refill_bounded_monotone_witness :
    refillTokens 5 0 2000 (3 / 10) ≤ TOKEN_CAP ∧
    (5 : ℚ) ≤ refillTokens 5 0 2000 (3 / 10) :=
  C7_refill_bounded_monotone 5 0 2000 (3 / 10) (by norm_num) (by norm_num) (by norm_num [TOKEN_CAP])

/-- The packing loop puts both 1980-character messages into one batch: their
counted lengths (1981 each) fit the 4000 ceiling. -/
theorem empaquetar_bigPair : empaquetar [bigMsg1, bigMsg2] 0 [] = ([bigMsg1, bigMsg2], []) := by
  have hlen : bigMsg1.text.length = 1980 := List.length_replicate 1980 'a'
  have hlen2 : bigMsg2.text.length = 1980 := List.length_replicate 1980 'a'
  rw [empaquetar, hlen]
  rw [if_neg (by norm_num [MAX_TG_LENGTH])]
  rw [if_neg (by norm_num [AGRUPA_TAMANO])]
  rw [empaquetar, hlen2]
  rw [if_neg (by norm_num [MAX_TG_LENGTH])]
  rw [if_neg (by norm_num [AGRUPA_TAMANO])]
  rw [empaquetar]
  rfl

/-- One drain tick with one token sends both 1980-character messages as a
single batch. -/
theorem drainTick_bigPair :
    drainTick 1 [bigMsg1, bigMsg2] = ⟨[[bigMsg1, bigMsg2]], [], 0, false⟩ := by
  show drainLoop (1 + 1) 1 [bigMsg1, bigMsg2] = _
  rw [drainLoop]
  rw [if_pos (by norm_num : (1 : ℚ) ≤ 1)]
  simp only [empaquetar_bigPair]
  rw [show (1 : ℚ) - 1 = 0 from by norm_num]
  rw [drainLoop]
  rw [if_neg (by norm_num : ¬ (1 : ℚ) ≤ 0)]

/-- The payload of that batch is 4042 characters long: header plus two
timestamped lines around the two 1980-character texts. -/
theorem mkLote_bigPair_length : (mkLote [bigMsg1, bigMsg2]).length = 4042 := by
  have hlenB : bigText.length = 1980 := List.length_replicate 1980 'a'
  have hf : formatHora 10800000 = "[00:00:00 GMT-3]" := by decide
  have hic : ∀ x y : String, String.intercalate "\n" [x, y] = x ++ "\n" ++ y := fun x y => rfl
  have ht2 : toString ([bigMsg1, bigMsg2].length) = "2" := rfl
  have hts : bigMsg1.timestamp = 10800000 := rfl
  have hts2 : bigMsg2.timestamp = 10800000 := rfl
  have htx : bigMsg1.text = bigText := rfl
  have htx2 : bigMsg2.text = bigText := rfl
  rw [mkLote, ht2]
  simp only [List.map_cons, List.map_nil, hts, hts2, htx, htx2, hf, hic]
  simp only [String.length_append, hlenB]
  decide

/-- One drain tick on a message whose text alone exceeds the ceiling: the
batch comes out empty, the callback errors, nothing is sent or truncated and
the message stays at the head of the queue. -/
theorem drainTick_huge : drainTick 1 [hugeMsg] = ⟨[], [hugeMsg], 1, true⟩ := by
  have hlenH : hugeMsg.text.length = 4000 := List.length_replicate 4000 'b'
  have hemp : empaquetar [hugeMsg] 0 [] = ([], [hugeMsg]) := by
    rw [empaquetar, hlenH]
    rw [if_pos (by norm_num [MAX_TG_LENGTH])]
    rfl
  show drainLoop (0 + 1) 1 [hugeMsg] = _
  rw [drainLoop]
  rw [if_pos (by norm_num : (1 : ℚ) ≤ 1)]
  simp only [hemp]

/-- C3: the claim says every drain payload stays within the 4000-character
ceiling and an oversized single message is truncated with a visible marker.
The code violates both: the packing loop counts only `text.length + 1` per
message, while the payload adds a header and a 17-character timestamp prefix
per line, so two 1980-character messages are packed into one batch whose
payload is 4042 characters; and a head message whose text alone exceeds the
ceiling produces an empty batch, so `loteItems[0].timestamp` throws a
TypeError (nothing truncated, nothing sent, the message stuck at the head). -/
theorem C3_payload_exceeds_ceiling :
    MAX_TG_LENGTH = 4000 ∧
    drainTick 1 [bigMsg1, bigMsg2] = ⟨[[bigMsg1, bigMsg2]], [], 0, false⟩ ∧
    (mkLote [bigMsg1, bigMsg2]).length = 4042 ∧
    MAX_TG_LENGTH < (mkLote [bigMsg1, bigMsg2]).length ∧
    drainTick 1 [hugeMsg] = ⟨[], [hugeMsg], 1, true⟩ := by
  refine ⟨rfl, drainTick_bigPair, mkLote_bigPair_length, ?_, drainTick_huge⟩
  rw [mkLote_bigPair_length]
  norm_num [MAX_TG_LENGTH]

/-- C4: a 429 reply re-schedules the exact same payload after
`max(retry_after * 1000, 2^retryCount * 1000)` ms — never less than the
advisory hint, and exactly the exponential term when no hint is present —
with at most 3 retries (4 transmissions); exceeding the cap merely logs and
drops that payload, and `sendToTelegram` never touches the message queue. -/
theorem C4_retry_on_429 (outcomes rest : List FetchOutcome) (text : String) (r : TgResp)
    (rc secs : Nat) :
    (∀ t ∈ sentTexts (sendToTelegram true outcomes text 0), t = text) ∧
    countSent (sendToTelegram true outcomes text 0) ≤ 4 ∧
    (r.ok = false → r.error_code = some 429 → rc < 3 → r.retry_after = some secs →
      sendToTelegram true (.resp r :: rest) text rc =
        .sent text :: .retrySched (max (secs * 1000) (2 ^ rc * 1000)) ::
          sendToTelegram true rest text (rc + 1) ∧
      secs * 1000 ≤ max (secs * 1000) (2 ^ rc * 1000)) ∧
    (r.ok = false → r.error_code = some 429 → ¬ rc < 3 →
      sendToTelegram true (.resp r :: rest) text rc = [.sent text, .errorLogged]) := by
  refine ⟨fun t ht => sendToTelegram_same_text outcomes text 0 t ht, ?_, ?_, ?_⟩
  · have h := sendToTelegram_countSent outcomes text 0
    omega
  · intro h1 h2 h3 h4
    refine ⟨?_, le_max_left _ _⟩
    simp [sendToTelegram, h1, h2, h3, h4]
  · intro h1 h2 h3
    simp [sendToTelegram, h1, h2, h3]

/-- Witness for C4: a single 429 reply with `retry_after = 2` at retry count 0
re-schedules the same text after `max(2000, 1000)` ms. -/
theorem C4_retry_on_429_witness :
    sendToTelegram true [FetchOutcome.resp ⟨false, some 429, some 2⟩] "liq" 0 =
      SendEvent.sent "liq" :: SendEvent.retrySched (max (2 * 1000) (2 ^ 0 * 1000)) ::
        sendToTelegram true [] "liq" 1 ∧
    2 * 1000 ≤ max (2 * 1000) (2 ^ 0 * 1000) :=
  (C4_retry_on_429 [] [] "liq" ⟨false, some 429, some 2⟩ 0 2).2.2.1 rfl rfl (by decide) rfl

/-- C6: a sliding-window summary is omitted when the window is empty; when the
total is positive the two one-decimal percentages sum to 100.0 within one
tenth; and three BUY plus one SELL event inside the 5-minute horizon report
total 4, BUY 3 at 75.0 percent, SELL 1 at 25.0 percent. -/
theorem C6_summary_percentages (ahora windowMs : Nat) (eventos : List Evento) :
    ((recientesDe ahora windowMs eventos).length = 0 →
      resumenEstadisticas ahora windowMs eventos = none) ∧
    (0 < (recientesDe ahora windowMs eventos).length →
      |toFixed1Q ((buyCount (recientesDe ahora windowMs eventos) : ℚ) /
            ((recientesDe ahora windowMs eventos).length : ℚ) * 100) +
          toFixed1Q (((((recientesDe ahora windowMs eventos).length -
              buyCount (recientesDe ahora windowMs eventos) : ℕ)) : ℚ) /
            ((recientesDe ahora windowMs eventos).length : ℚ) * 100) - 100| ≤ 1 / 10) ∧
    resumenEstadisticas 1000000 300000 escenario4 =
      some "• *5.0 min* → Total: 4, BUY: 3 (75.0%), SELL: 1 (25.0%)" := by
  refine ⟨?_, ?_, ?_⟩
  · intro h
    simp [resumenEstadisticas, h]
  · intro h
    set t := (recientesDe ahora windowMs eventos).length with ht
    set b := buyCount (recientesDe ahora windowMs eventos) with hb
    have hble : b ≤ t := List.length_filter_le _ _
    have htq : (t : ℚ) ≠ 0 := Nat.cast_ne_zero.mpr h.ne'
    have hcast : (((t - b : ℕ)) : ℚ) = (t : ℚ) - (b : ℚ) := Nat.cast_sub hble
    have hcomp : (((t - b : ℕ)) : ℚ) / (t : ℚ) * 100 = 100 - (b : ℚ) / (t : ℚ) * 100 := by
      rw [hcast]
      field_simp
      ring
    rw [hcomp]
    exact toFixed1Q_pair_sum _
  · have hrec : recientesDe 1000000 300000 escenario4 = escenario4 := by decide
    have hbuy : buyCount escenario4 = 3 := by decide
    have hlen4 : escenario4.length = 4 := rfl
    have h75 : toFixed1Str (75 : ℚ) = "75.0" := by
      have hn : (⌊(10 : ℚ) * 75 + 1 / 2⌋ : ℤ) = 750 := by norm_num
      simp only [toFixed1Str, hn]
      decide
    have h25 : toFixed1Str (25 : ℚ) = "25.0" := by
      have hn : (⌊(10 : ℚ) * 25 + 1 / 2⌋ : ℤ) = 250 := by norm_num
      simp only [toFixed1Str, hn]
      decide
    have h5 : toFixed1Str (5 : ℚ) = "5.0" := by
      have hn : (⌊(10 : ℚ) * 5 + 1 / 2⌋ : ℤ) = 50 := by norm_num
      simp only [toFixed1Str, hn]
      decide
    rw [resumenEstadisticas, hrec]
    norm_num [hbuy, hlen4, h75, h25, h5]
    decide

/-- Witness for C6: the empty window produces no summary, and the 3 BUY + 1
SELL scenario's rounded percentages sum to 100 within one tenth. -/
theorem C6_summary_percentages_witness :
    resumenEstadisticas 5 5 [] = none ∧
    |toFixed1Q ((buyCount (recientesDe 1000000 300000 escenario4) : ℚ) /
          ((recientesDe 1000000 300000 escenario4).length : ℚ) * 100) +
        toFixed1Q (((((recientesDe 1000000 300000 escenario4).length -
            buyCount (recientesDe 1000000 300000 escenario4) : ℕ)) : ℚ) /
          ((recientesDe 1000000 300000 escenario4).length : ℚ) * 100) - 100| ≤ 1 / 10 :=
  ⟨(C6_summary_percentages 5 5 []).1 (by decide),
   (C6_summary_percentages 1000000 300000 escenario4).2.1 (by decide)⟩

/-- C8: batches leave the queue strictly from the head — the concatenation of
the batch items and the remaining queue is always the original queue — and with
a budget of one send per tick, three short messages leave as exactly one batch
(in order) while six short messages leave as one five-message batch with the
sixth left queued. -/
theorem C8_fifo_order (fuel : Nat) (tokens : ℚ) (queue : List Msg) :
    (drainLoop fuel tokens queue).batches.flatten ++ (drainLoop fuel tokens queue).queue =
      queue ∧
    drainTick 1 [msgA, msgB, msgC] = ⟨[[msgA, msgB, msgC]], [], 0, false⟩ ∧
    drainTick 1 sixShort = ⟨[sixShort.take 5], [⟨"m6", 10800000⟩], 0, false⟩ := by
  refine ⟨drainLoop_fifo fuel tokens queue, ?_, ?_⟩
  · norm_num [drainTick, drainLoop, empaquetar, msgA, msgB, msgC, MAX_TG_LENGTH,
      AGRUPA_TAMANO, show (("m1" : String)).length = 2 from rfl,
      show (("m2" : String)).length = 2 from rfl, show (("m3" : String)).length = 2 from rfl]
  · norm_num [drainTick, drainLoop, empaquetar, sixShort, MAX_TG_LENGTH, AGRUPA_TAMANO,
      show (("m1" : String)).length = 2 from rfl, show (("m2" : String)).length = 2 from rfl,
      show (("m3" : String)).length = 2 from rfl, show (("m4" : String)).length = 2 from rfl,
      show (("m5" : String)).length = 2 from rfl, show (("m6" : String)).length = 2 from rfl]

/-- C9: the health handler is read-only — it returns the state unchanged —
and reports liveness, queue depth, per-exchange connection status, and the
5-minute window counts with BUY + SELL = total. -/
theorem C9_health_read_only (s : BotState) (now : Nat) :
    (healthHandler s now).2 = s ∧
    (healthHandler s now).1.status = "ok" ∧
    (healthHandler s now).1.messagesInQueue = s.messageQueue.length ∧
    (healthHandler s now).1.lastMessageSent = s.lastMessageSent ∧
    (healthHandler s now).1.okx = s.okxConnected ∧
    (healthHandler s now).1.binance = s.binanceConnected ∧
    (healthHandler s now).1.total = (recientesDe now (5 * 60 * 1000) s.eventos).length ∧
    (healthHandler s now).1.buy = buyCount (recientesDe now (5 * 60 * 1000) s.eventos) ∧
    (healthHandler s now).1.buy + (healthHandler s now).1.sell = (healthHandler s now).1.total := by
  refine ⟨rfl, rfl, rfl, rfl, rfl, rfl, rfl, rfl, ?_⟩
  have hb : buyCount (recientesDe now (5 * 60 * 1000) s.eventos) ≤
      (recientesDe now (5 * 60 * 1000) s.eventos).length := List.length_filter_le _ _
  simp only [healthHandler]
  omega

end TgBot
